import Mathlib

/-!
Shallow embedding of the Wind API tool-calling orchestration layer:
the LLM provider adapter (`wind_api/agent/provider.py`), the tools
registry (`wind_api/apps/tools_registry.py`), the system tools
dispatcher (`wind_api/agent/tools.py`) and the chat orchestrator
(`wind_api/main.py`), together with theorems settling the claims
about their specification.

Python dictionaries are modelled as insertion-ordered association
lists over `String` keys; Python exceptions are modelled with
`Except String`, where `Except.error` stands for an exception
propagating out of the modelled code and `Except.ok` for a normal
return.
-/

/-- JSON-like values: the model of Python `Any` payloads that flow
through tool arguments, tool results and exported schemas. -/
inductive Json where
  | null : Json
  | bool (b : Bool) : Json
  | num (n : Int) : Json
  | str (s : String) : Json
  | arr (xs : List Json) : Json
  | obj (fields : List (String × Json)) : Json

/-- Association list standing for a Python `dict` with string keys
(insertion ordered, as CPython dicts are). -/
abbrev Dict (α : Type) := List (String × α)

/-- `d.get(k)`: first binding of `k`, if any. -/
def dlookup {α : Type} (k : String) : Dict α → Option α
  | [] => none
  | (k2, v) :: rest => if k2 = k then some v else dlookup k rest

/-- `d[k] = v`: replace the binding in place if the key exists
(keeping its position, as CPython does), else append it. -/
def dinsert {α : Type} (k : String) (v : α) : Dict α → Dict α
  | [] => [(k, v)]
  | (k2, v2) :: rest =>
      if k2 = k then (k, v) :: rest else (k2, v2) :: dinsert k v rest

/-- Field access on a JSON object. -/
def jget (k : String) : Json → Option Json
  | Json.obj fields => dlookup k fields
  | _ => none

/-- A single-quote character, used inside diagnostic strings. -/
def squote : String := String.singleton (Char.ofNat 39)

/-- `ToolCall` (provider.py): a tool call made by the LLM, with the
arguments already decoded into a mapping. -/
structure ToolCall where
  id : String
  name : String
  arguments : Dict Json

/-- Canonical conversation message (the dict shape produced by
`LLMProvider.acomplete` and consumed by `main.chat`): role, content,
optional tool calls, optional tool_call_id. `none` models the key
being absent from the dict. -/
structure Msg where
  role : String
  content : String
  tool_calls : Option (List ToolCall) := none
  tool_call_id : Option String := none

/-- `ToolFunction` (provider.py): a tool definition in the provider
adapter vocabulary; `parameters` is a raw JSON-schema object. -/
structure ToolFunction where
  name : String
  description : String
  parameters : Json := Json.obj []

/-- An element of the tools list actually handed to
`LLMProvider.acomplete` by the chat endpoint: either a `ToolFunction`
object (the system TOOL_DEFINITIONS) or a plain schema `dict`
(the output of `ToolsRegistry.get_openai_schemas`). -/
inductive ToolInput where
  | fn (f : ToolFunction) : ToolInput
  | schema (s : Json) : ToolInput

/-- Whether a tools-list element is a genuine `ToolFunction` object. -/
def ToolInput.isFn : ToolInput → Bool
  | .fn _ => true
  | .schema _ => false

/-- The `AttributeError` raised by Python when `.name` (or another
`ToolFunction` attribute) is read off a plain schema dict. -/
def dictNoAttr : String :=
  "AttributeError: " ++ squote ++ "dict" ++ squote ++
    " object has no attribute " ++ squote ++ "name" ++ squote

/-- Reading `tool.name` off a tools-list element: succeeds on a
`ToolFunction`, raises `AttributeError` on a schema dict
(`_mock_response` line `first_tool.name`). -/
def ToolInput.getName : ToolInput → Except String String
  | .fn f => .ok f.name
  | .schema _ => .error dictNoAttr

/-- `LLMProvider._mock_response`, the backward scan for the most
recent `user`-role message; returns the fixed fallback text when
none exists. -/
def findLastUser (messages : List Msg) : String :=
  match messages.reverse.find? (fun m => m.role = "user") with
  | some m => m.content
  | none => "No user message found"

/-- Prefix of the mock content, up to and including the opening
quote around the echoed user message. -/
def mockPre : String :=
  "[MOCK RESPONSE] I received your message: " ++ squote

/-- Suffix of the mock content, from the closing quote around the
echoed user message. -/
def mockPost : String :=
  squote ++ ". Please configure an LLM provider API key to get real responses."

/-- `LLMProvider._mock_response`: echo the most recent user message
inside a fixed-format acknowledgment; when the tools list is
non-empty, additionally fabricate a single tool call on the first
tool with empty arguments.  Reading `.name` off a schema-dict head
raises, exactly as the Python attribute access would. -/
def mockResponse (messages : List Msg) (tools : List ToolInput) :
    Except String Msg :=
  let content := mockPre ++ (findLastUser messages ++ mockPost)
  match tools with
  | [] => .ok { role := "assistant", content := content }
  | t :: _ =>
      match t.getName with
      | .error e => .error e
      | .ok n =>
          .ok { role := "assistant", content := content,
                tool_calls := some [{ id := "mock_tool_call_1", name := n,
                                      arguments := [] }] }

example :
    mockResponse [{ role := "user", content := "Hello" }] [] =
      Except.ok ({ role := "assistant",
                   content := mockPre ++ ("Hello" ++ mockPost) } : Msg) := rfl

/-- `LLMProvider.to_dict` applied to an element of the mixed tools
list: on a `ToolFunction` it builds the OpenAI function-call wire
shape; on a plain schema dict the attribute reads raise
`AttributeError`.  Note this runs before the `try:` block in
`_complete_with_openai`. -/
def to_dict : ToolInput → Except String Json
  | .fn f =>
      .ok (Json.obj [("type", Json.str "function"),
        ("function", Json.obj [("name", Json.str f.name),
          ("description", Json.str f.description),
          ("parameters", f.parameters)])])
  | .schema _ => .error dictNoAttr

/-- The list comprehension `[self.to_dict(tool) for tool in tools]`:
the first raising element aborts the whole comprehension. -/
def translateTools : List ToolInput → Except String (List Json)
  | [] => .ok []
  | t :: rest =>
      match to_dict t with
      | .error e => .error e
      | .ok j =>
          match translateTools rest with
          | .error e => .error e
          | .ok js => .ok (j :: js)

/-- The normalized request handed to the OpenAI SDK call
(`self.openai_client.chat.completions.create(**params)`). -/
structure ProviderRequest where
  model : String
  messages : List Msg
  tools : Option (List Json) := none

/-- A raw tool call as the OpenAI SDK returns it: arguments are an
undecoded JSON text. -/
structure RawToolCall where
  id : String
  name : String
  argumentsRaw : String

/-- The raw choice message extracted from the backend response
(`response.choices[0].message`): `content` may be null, and
`tool_calls` may be absent/null. -/
structure RawMessage where
  content : Option String := none
  tool_calls : Option (List RawToolCall) := none

/-- The `if tools:` schema-translation step of
`_complete_with_openai` (before the `try:`): `none` or an empty list
are falsy and no `tools` parameter is set; otherwise every element
goes through `to_dict`. -/
def openaiToolsParam : Option (List ToolInput) →
    Except String (Option (List Json))
  | some ts =>
      if ts.isEmpty then .ok none
      else
        match translateTools ts with
        | .error e => .error e
        | .ok js => .ok (some js)
  | none => .ok none

/-- The `try:` block of `_complete_with_openai`: the backend call
and the normalization of its response, any exception folded into the
diagnostic assistant message (the `except` clause) — so this part
always returns a message.  Tool-call arguments that fail to decode
are replaced by the single-key error marker, and the call is kept. -/
def openaiTryBlock (send : ProviderRequest → Except String RawMessage)
    (decodeArgs : String → Option (Dict Json)) (req : ProviderRequest) : Msg :=
  match send req with
  | .error e => { role := "assistant", content := "Error: " ++ e }
  | .ok raw =>
      let base : Msg := { role := "assistant", content := raw.content.getD "" }
      match raw.tool_calls with
      | some tcs =>
          if tcs.isEmpty then base
          else
            { base with tool_calls := some (tcs.map (fun tc =>
              { id := tc.id, name := tc.name,
                arguments :=
                  match decodeArgs tc.argumentsRaw with
                  | some args => args
                  | none => [("error", Json.str "Failed to parse arguments")] })) }
      | none => base

/-- `LLMProvider._complete_with_openai`.  `send` models the network
round-trip to the backend (`Except.error` = any exception thrown by
the SDK call); `decodeArgs` models `json.loads` on the argument text of
a tool call (`none` = `json.JSONDecodeError`); `defaultModel`
models `settings.openai_model`.

Mirrors the source: the system message is prepended first, the tool
schemas are translated with `to_dict` when the tools list is truthy
(both steps before the `try:`), and only the backend call plus the
response parsing sit inside the `try:` whose handler returns the
diagnostic assistant message `"Error: ..."`. -/
def completeWithOpenai
    (send : ProviderRequest → Except String RawMessage)
    (decodeArgs : String → Option (Dict Json))
    (defaultModel : String)
    (messages : List Msg) (tools : Option (List ToolInput) := none)
    (system : Option String := none) (model : Option String := none) :
    Except String Msg :=
  let openaiMessages :=
    match system with
    | some s => ({ role := "system", content := s } : Msg) :: messages
    | none => messages
  match openaiToolsParam tools with
  | .error e => .error e
  | .ok tp =>
      .ok (openaiTryBlock send decodeArgs
        { model := model.getD defaultModel,
          messages := openaiMessages, tools := tp })

/-- A healthy backend that answers every request with plain text. -/
def sendEcho : ProviderRequest → Except String RawMessage :=
  fun _ => .ok { content := some "ok" }

/-- A trivially failing JSON decoder (unused by the counterexample). -/
def decodeNone : String → Option (Dict Json) := fun _ => none

example :
    completeWithOpenai sendEcho decodeNone "gpt-4o"
      [{ role := "user", content := "hi" }]
      (some [ToolInput.schema (Json.obj [])]) none none =
    Except.error dictNoAttr := rfl

example :
    completeWithOpenai (fun _ => Except.error "boom") decodeNone "gpt-4o"
      [{ role := "user", content := "hi" }] none none none =
    Except.ok ({ role := "assistant", content := "Error: boom" } : Msg) := rfl

/-- `ToolParameter` (tools_registry.py): one declared parameter of a
registry tool. -/
structure RegToolParameter where
  name : String
  type : String
  description : String
  required : Bool := true
  enum : Option (List String) := none
  defaultVal : Option Json := none

/-- `ToolDefinition` (tools_registry.py): a registry tool definition. -/
structure ToolDefinition where
  name : String
  description : String
  parameters : List RegToolParameter
  app_id : Option String := none
  category : String := "system"
  is_dangerous : Bool := false
  requires_auth : Bool := false

/-- The `properties` mapping built by the loop in
`ToolDefinition.to_openai_schema`, in parameter order. -/
def openaiProps : List RegToolParameter → Dict Json
  | [] => []
  | p :: rest =>
      (p.name,
        match p.enum with
        | some e =>
            Json.obj [("type", Json.str p.type),
              ("description", Json.str p.description),
              ("enum", Json.arr (e.map Json.str))]
        | none =>
            Json.obj [("type", Json.str p.type),
              ("description", Json.str p.description)]) :: openaiProps rest

/-- The `required` list built by the loop in
`ToolDefinition.to_openai_schema`. -/
def openaiRequired : List RegToolParameter → List String
  | [] => []
  | p :: rest =>
      if p.required then p.name :: openaiRequired rest else openaiRequired rest

/-- `ToolDefinition.to_openai_schema`: the "function/parameters"
dialect. -/
def ToolDefinition.to_openai_schema (td : ToolDefinition) : Json :=
  Json.obj [("type", Json.str "function"),
    ("function", Json.obj [("name", Json.str td.name),
      ("description", Json.str td.description),
      ("parameters", Json.obj [("type", Json.str "object"),
        ("properties", Json.obj (openaiProps td.parameters)),
        ("required", Json.arr ((openaiRequired td.parameters).map Json.str))])])]

/-- The `parameters` mapping built by the loop in
`ToolDefinition.to_anthropic_schema` (the variable is called
`parameters` in the source; it plays the role of `properties`). -/
def anthropicProps : List RegToolParameter → Dict Json
  | [] => []
  | p :: rest =>
      (p.name,
        match p.enum with
        | some e =>
            Json.obj [("type", Json.str p.type),
              ("description", Json.str p.description),
              ("enum", Json.arr (e.map Json.str))]
        | none =>
            Json.obj [("type", Json.str p.type),
              ("description", Json.str p.description)]) :: anthropicProps rest

/-- The `required` list built by the loop in
`ToolDefinition.to_anthropic_schema`. -/
def anthropicRequired : List RegToolParameter → List String
  | [] => []
  | p :: rest =>
      if p.required then p.name :: anthropicRequired rest
      else anthropicRequired rest

/-- `ToolDefinition.to_anthropic_schema`: the "name/input_schema"
dialect. -/
def ToolDefinition.to_anthropic_schema (td : ToolDefinition) : Json :=
  Json.obj [("name", Json.str td.name),
    ("description", Json.str td.description),
    ("input_schema", Json.obj [("type", Json.str "object"),
      ("properties", Json.obj (anthropicProps td.parameters)),
      ("required", Json.arr ((anthropicRequired td.parameters).map Json.str))])]

/-- A registered tool handler: takes the argument mapping and the
context mapping, returns a result payload or raises
(`Except.error`). -/
abbrev Handler := Dict Json → Dict Json → Except String Json

/-- `ToolsRegistry`: `_tools`, `_handlers` and `_categories`.
Categories are kept as a duplicate-free insertion list (a model of
the Python `set`, whose ordering no claim depends on). -/
structure Registry where
  tools : Dict ToolDefinition := []
  handlers : Dict Handler := []
  categories : List String := ["system"]

/-- Insertion into the `_categories` set. -/
def setInsert (s : String) (l : List String) : List String :=
  if l.contains s then l else l ++ [s]

/-- `ToolsRegistry.add_tool`: register (or silently overwrite) a
definition under its name. -/
def Registry.add_tool (r : Registry) (td : ToolDefinition) : Registry :=
  { r with tools := dinsert td.name td r.tools,
           categories := setInsert td.category r.categories }

/-- `ToolsRegistry.add_handler`: bind a handler, raising `ValueError`
when the name has no registered definition (the raise happens before
any mutation, so the error case carries no updated registry). -/
def Registry.add_handler (r : Registry) (tool_name : String) (h : Handler) :
    Except String Registry :=
  if (dlookup tool_name r.tools).isSome then
    .ok { r with handlers := dinsert tool_name h r.handlers }
  else
    .error ("Tool " ++ squote ++ tool_name ++ squote ++ " is not registered")

/-- `ToolsRegistry.register_tool`: `add_tool` then `add_handler`. -/
def Registry.register_tool (r : Registry) (td : ToolDefinition) (h : Handler) :
    Except String Registry :=
  (r.add_tool td).add_handler td.name h

/-- `ToolsRegistry.list_tools`: all definitions, optionally filtered
by a truthy category (an empty-string category is falsy in Python
and returns everything). -/
def Registry.list_tools (r : Registry) (category : Option String := none) :
    List ToolDefinition :=
  match category with
  | some c =>
      if c.isEmpty then r.tools.map Prod.snd
      else (r.tools.map Prod.snd).filter (fun t => t.category = c)
  | none => r.tools.map Prod.snd

/-- `ToolsRegistry.get_tool`. -/
def Registry.get_tool (r : Registry) (tool_name : String) :
    Option ToolDefinition :=
  dlookup tool_name r.tools

/-- `ToolsRegistry.get_openai_schemas`. -/
def Registry.get_openai_schemas (r : Registry) (category : Option String := none) :
    List Json :=
  (r.list_tools category).map ToolDefinition.to_openai_schema

/-- `ToolsRegistry.get_anthropic_schemas`. -/
def Registry.get_anthropic_schemas (r : Registry) (category : Option String := none) :
    List Json :=
  (r.list_tools category).map ToolDefinition.to_anthropic_schema

/-- `ToolsRegistry.can_handle`: registered and bound. -/
def Registry.can_handle (r : Registry) (tool_name : String) : Bool :=
  (dlookup tool_name r.tools).isSome && (dlookup tool_name r.handlers).isSome

/-- `ToolsRegistry.handle`: raise `ValueError` when the tool cannot
be handled; otherwise invoke the handler inside a `try:` that folds
any handler exception into a `status:"error"` result dict. -/
def Registry.handle (r : Registry) (tool_name : String) (args : Dict Json)
    (context : Dict Json := []) : Except String (Dict Json) :=
  match dlookup tool_name r.tools, dlookup tool_name r.handlers with
  | some _, some h =>
      match h args context with
      | .ok data => .ok [("status", Json.str "success"), ("data", data)]
      | .error e => .ok [("status", Json.str "error"), ("error", Json.str e)]
  | _, _ =>
      .error ("Tool " ++ squote ++ tool_name ++ squote ++ " cannot be handled")

/-- `ToolsRegistry.get_categories`. -/
def Registry.get_categories (r : Registry) : List String :=
  r.categories

/-- Serialization of a JSON value, the model of `json.dumps` used
when a tool result is folded into a `tool`-role message. -/
def jsonDumps : Json → String
  | .null => "null"
  | .bool true => "true"
  | .bool false => "false"
  | .num n => toString n
  | .str s => "\"" ++ s ++ "\""
  | .arr xs =>
      "[" ++ String.intercalate ", "
        (xs.attach.map (fun x => jsonDumps x.1)) ++ "]"
  | .obj fs =>
      "\x7b" ++ String.intercalate ", "
        (fs.attach.map (fun f => "\"" ++ f.1.1 ++ "\": " ++ jsonDumps f.1.2)) ++
        "\x7d"
decreasing_by
  all_goals simp_wf
  · have := List.sizeOf_lt_of_mem x.2
    omega
  · have h1 := List.sizeOf_lt_of_mem f.2
    have h2 : sizeOf f.1.2 < sizeOf f.1 := by
      obtain ⟨a, b⟩ := f.1
      simp only [Prod.mk.sizeOf_spec]
      omega
    omega

/-- The names in the `tool_map` of `Tools.call` (tools.py): the six
browser-automation methods. -/
def systemToolNames : List String :=
  ["web.navigate", "ui.click", "ui.type", "web.search", "web.extract",
   "ui.screenshot"]

/-- `Tools.call` (tools.py): raise `ValueError` for a name missing
from `tool_map`; otherwise invoke the mapped method inside a `try:`
that folds its outcome into a `success` dict.  `impl` abstracts the
behavior of the Playwright-backed methods (external I/O), with
`Except.error` standing for any exception the invocation raises. -/
def toolsCall (impl : String → Dict Json → Except String Json)
    (name : String) (args : Dict Json) : Except String (Dict Json) :=
  if systemToolNames.contains name then
    match impl name args with
    | .ok r => .ok [("success", Json.bool true), ("result", r)]
    | .error e => .ok [("success", Json.bool false), ("error", Json.str e)]
  else
    .error ("Unknown tool: " ++ name)

/-- `TOOL_DEFINITIONS` (tools.py): the fixed system tool set handed
to the provider by the chat endpoint. -/
def TOOL_DEFINITIONS : List ToolFunction :=
  [{ name := "web.navigate",
     description := "Navigate to a URL in the browser",
     parameters := Json.obj [("type", Json.str "object"),
       ("properties", Json.obj [("url", Json.obj [("type", Json.str "string"),
         ("description", Json.str "The URL to navigate to")])]),
       ("required", Json.arr [Json.str "url"])] },
   { name := "ui.click",
     description := "Click on an element in the current page",
     parameters := Json.obj [("type", Json.str "object"),
       ("properties", Json.obj [
         ("selector", Json.obj [("type", Json.str "string"),
           ("description", Json.str "CSS selector or text content of the element to click")]),
         ("timeout", Json.obj [("type", Json.str "integer"),
           ("description", Json.str "Maximum time to wait for the element in milliseconds"),
           ("default", Json.num 5000)])]),
       ("required", Json.arr [Json.str "selector"])] },
   { name := "ui.type",
     description := "Type text into an input field",
     parameters := Json.obj [("type", Json.str "object"),
       ("properties", Json.obj [
         ("selector", Json.obj [("type", Json.str "string"),
           ("description", Json.str "CSS selector of the input field")]),
         ("text", Json.obj [("type", Json.str "string"),
           ("description", Json.str "Text to type into the field")]),
         ("timeout", Json.obj [("type", Json.str "integer"),
           ("description", Json.str "Maximum time to wait for the element in milliseconds"),
           ("default", Json.num 5000)])]),
       ("required", Json.arr [Json.str "selector", Json.str "text"])] },
   { name := "web.search",
     description := "Perform a web search using DuckDuckGo",
     parameters := Json.obj [("type", Json.str "object"),
       ("properties", Json.obj [("query", Json.obj [("type", Json.str "string"),
         ("description", Json.str "Search query")])]),
       ("required", Json.arr [Json.str "query"])] },
   { name := "web.extract",
     description := "Extract text from elements matching a selector",
     parameters := Json.obj [("type", Json.str "object"),
       ("properties", Json.obj [("selector", Json.obj [("type", Json.str "string"),
         ("description", Json.str "CSS selector for elements to extract text from")])]),
       ("required", Json.arr [Json.str "selector"])] },
   { name := "ui.screenshot",
     description := "Take a screenshot of the current page or a specific element",
     parameters := Json.obj [("type", Json.str "object"),
       ("properties", Json.obj [
         ("path", Json.obj [("type", Json.str "string"),
           ("description", Json.str "Path where to save the screenshot (optional)")]),
         ("selector", Json.obj [("type", Json.str "string"),
           ("description", Json.str "CSS selector of the element to screenshot (optional)")])])] }]

/-- Modelled from the spec: the fixed system prompt
`WIND_SYSTEM_PROMPT` lives in `wind_api/agent/prompt.py`, which is
not among the provided sources; per the spec it is a fixed
instruction string owned by the orchestrator configuration, and no
claim depends on its content — only on the same constant being
passed to both completion calls. -/
def WIND_SYSTEM_PROMPT : String := "WIND_SYSTEM_PROMPT"

/-- `combined_tool_schemas` (main.py line 160): the system
`TOOL_DEFINITIONS` (ToolFunction objects) concatenated with the app
OpenAI-dialect schema dicts of the app registry. -/
def combinedToolSchemas (reg : Registry) : List ToolInput :=
  TOOL_DEFINITIONS.map ToolInput.fn ++
    (reg.get_openai_schemas none).map ToolInput.schema

/-- One entry of the `steps` audit list built by `main.chat`
(dicts keyed by `"type"` in the source). -/
inductive Step where
  | input (messages : List Msg) : Step
  | llm_response (message : Msg) : Step
  | tool_call (tc : ToolCall) (result : Dict Json) : Step
  | tool_error (tc : ToolCall) (error : String) : Step
  | final_response (message : Msg) : Step

/-- Whether a step is one of the tool-phase kinds. -/
def Step.isToolStep : Step → Bool
  | .tool_call _ _ => true
  | .tool_error _ _ => true
  | _ => false

/-- One entry of `tool_results` in `main.chat`. -/
structure ToolResultEntry where
  tool_call_id : String
  name : String
  arguments : Dict Json
  result : Dict Json

/-- The request body of the chat endpoint (`ChatRequest`). -/
structure ChatRequest where
  messages : List Msg
  workspace_id : Option String := none
  user_id : Option String := none
  streaming : Bool := false

/-- `request.user_id or "default_user"`: Python `or`, so a missing
or empty user id falls back to the sentinel identity. -/
def userIdOrDefault : Option String → String
  | some u => if u.isEmpty then "default_user" else u
  | none => "default_user"

/-- The abstract completion backend seen by the orchestrator:
messages, optional tools list, optional system prompt to resulting
message (`LLMProvider.acomplete` at the call sites in `main.chat`). -/
abbrev Provider := List Msg → Option (List ToolInput) → Option String → Msg

/-- One recorded invocation of the Provider Adapter by the
orchestrator, with the arguments it was given. -/
structure ProviderCall where
  messages : List Msg
  tools : Option (List ToolInput)
  system : Option String

/-- The outcome of `main.chat`: the response message, the `steps`
audit list, and the trace of Provider Adapter invocations made. -/
structure ChatResult where
  message : Msg
  steps : List Step
  calls : List ProviderCall

/-- The body of the per-tool-call loop in `main.chat`: route to the
app registry when it `can_handle` the name, else to the system
tools; `Except.error` models an exception reaching the `except`
clause of the loop body. -/
def routeToolCall (reg : Registry)
    (impl : String → Dict Json → Except String Json)
    (user_id : Option String) (tc : ToolCall) : Except String (Dict Json) :=
  if reg.can_handle tc.name then
    reg.handle tc.name tc.arguments
      [("user_id", Json.str (userIdOrDefault user_id))]
  else
    toolsCall impl tc.name tc.arguments

/-- One iteration of the tool-call loop: a successful dispatch
yields a `tool_call` step and the result entry; an exception is
caught, yielding a `tool_error` step and an error-result entry. -/
def runOne (reg : Registry)
    (impl : String → Dict Json → Except String Json)
    (user_id : Option String) (tc : ToolCall) : ToolResultEntry × Step :=
  match routeToolCall reg impl user_id tc with
  | .ok result =>
      (⟨tc.id, tc.name, tc.arguments, result⟩, Step.tool_call tc result)
  | .error e =>
      (⟨tc.id, tc.name, tc.arguments,
        [("success", Json.bool false), ("error", Json.str e)]⟩,
       Step.tool_error tc e)

/-- The `tool`-role message appended to the history for one
`tool_results` entry. -/
def toolResultMessage (e : ToolResultEntry) : Msg :=
  { role := "tool", content := jsonDumps (Json.obj e.result),
    tool_call_id := some e.tool_call_id }

/-- `main.chat`: the conversation orchestrator.  `provider` abstracts
`LLMProvider.acomplete` and `impl` the browser-tool behaviors; the
step list and the provider-invocation trace are built exactly as the
endpoint builds them. -/
def chat (provider : Provider) (reg : Registry)
    (impl : String → Dict Json → Except String Json)
    (req : ChatRequest) : ChatResult :=
  let messages := req.messages
  let combined := combinedToolSchemas reg
  let response := provider messages (some combined) (some WIND_SYSTEM_PROMPT)
  let firstCall : ProviderCall :=
    ⟨messages, some combined, some WIND_SYSTEM_PROMPT⟩
  let steps1 := [Step.input messages, Step.llm_response response]
  match response.tool_calls with
  | some tcs =>
      if tcs.isEmpty then
        { message := response, steps := steps1, calls := [firstCall] }
      else
        let outcomes := tcs.map (runOne reg impl req.user_id)
        let messages2 :=
          messages ++ (outcomes.map Prod.fst).map toolResultMessage
        let finalResponse := provider messages2 none (some WIND_SYSTEM_PROMPT)
        let secondCall : ProviderCall :=
          ⟨messages2, none, some WIND_SYSTEM_PROMPT⟩
        { message := finalResponse,
          steps := steps1 ++ outcomes.map Prod.snd ++
            [Step.final_response finalResponse],
          calls := [firstCall, secondCall] }
  | none => { message := response, steps := steps1, calls := [firstCall] }

/-! ### Helper lemmas -/

/-- The two schema exporters build the same properties mapping. -/
lemma props_eq (ps : List RegToolParameter) :
    openaiProps ps = anthropicProps ps := by
  induction ps with
  | nil => rfl
  | cons p rest ih => simp [openaiProps, anthropicProps, ih]

/-- The two schema exporters build the same required list. -/
lemma required_eq (ps : List RegToolParameter) :
    openaiRequired ps = anthropicRequired ps := by
  induction ps with
  | nil => rfl
  | cons p rest ih => simp [openaiRequired, anthropicRequired, ih]

/-- A substring occurrence witnessed by an explicit decomposition. -/
def containsStr (s sub : String) : Prop := ∃ a b, s = a ++ (sub ++ b)

/-- The mock content starts with the mock marker. -/
lemma mock_marker (last : String) :
    containsStr (mockPre ++ (last ++ mockPost)) "[MOCK RESPONSE]" := by
  refine ⟨"", " I received your message: " ++ (squote ++ (last ++ mockPost)), ?_⟩
  have h1 : mockPre = ("[MOCK RESPONSE]" ++ " I received your message: ") ++ squote := rfl
  rw [String.empty_append, h1, String.append_assoc, String.append_assoc]

/-! ### C9 -/

/-- C9: for every ToolDefinition the two schema export dialects
agree — the `properties` mapping and `required` list under
`function.parameters` in `to_openai_schema` equal those under
`input_schema` in `to_anthropic_schema`, and both carry the same
name and description. -/
theorem C9_schema_dialects_agree (td : ToolDefinition) :
    (((jget "function" td.to_openai_schema).bind (jget "parameters")).bind
        (jget "properties") =
      (jget "input_schema" td.to_anthropic_schema).bind (jget "properties")) ∧
    (((jget "function" td.to_openai_schema).bind (jget "parameters")).bind
        (jget "required") =
      (jget "input_schema" td.to_anthropic_schema).bind (jget "required")) ∧
    ((jget "function" td.to_openai_schema).bind (jget "name") =
      jget "name" td.to_anthropic_schema) ∧
    ((jget "function" td.to_openai_schema).bind (jget "description") =
      jget "description" td.to_anthropic_schema) := by
  have hp := props_eq td.parameters
  have hr := required_eq td.parameters
  refine ⟨?_, ?_, ?_, ?_⟩ <;>
    simp [ToolDefinition.to_openai_schema, ToolDefinition.to_anthropic_schema,
      jget, dlookup, hp, hr]

/-! ### C4 -/

/-- C4: in mock mode (no configured backend) the content of the returned
assistant message contains the mock marker and embeds the most
recent user message content verbatim; when a non-empty tools list
is supplied (headed, as typed, by a `ToolFunction`), the response
carries exactly one fabricated tool call on the first tool with
empty arguments, and no tool calls otherwise. -/
theorem C4_mock_response (messages : List Msg) (tools : List ToolInput)
    (h : tools = [] ∨ ∃ f rest, tools = ToolInput.fn f :: rest) :
    ∃ m, mockResponse messages tools = Except.ok m ∧
      m.role = "assistant" ∧
      containsStr m.content "[MOCK RESPONSE]" ∧
      containsStr m.content (findLastUser messages) ∧
      (∀ f rest, tools = ToolInput.fn f :: rest →
        m.tool_calls = some [{ id := "mock_tool_call_1", name := f.name,
                               arguments := [] }]) ∧
      (tools = [] → m.tool_calls = none) := by
  rcases h with h | ⟨f, rest, h⟩ <;> subst h
  · refine ⟨_, rfl, rfl, mock_marker _, ⟨mockPre, mockPost, rfl⟩, ?_, ?_⟩
    · intro f rest hcontra
      exact absurd hcontra (by simp)
    · intro _
      rfl
  · refine ⟨_, rfl, rfl, mock_marker _, ⟨mockPre, mockPost, rfl⟩, ?_, ?_⟩
    · intro f2 rest2 heq
      have hf : f2 = f := by
        injection heq with h1 _
        injection h1 with h2
        exact h2.symm
      subst hf
      rfl
    · intro hcontra
      exact absurd hcontra (by simp)

/-- Witness for C4 at a concrete input: one user message and the
first system tool definition. -/
theorem C4_mock_response_witness :
    ∃ m, mockResponse [{ role := "user", content := "Hello" }]
        [ToolInput.fn { name := "web.navigate", description := "d" }] =
      Except.ok m ∧
      m.role = "assistant" ∧
      containsStr m.content "[MOCK RESPONSE]" ∧
      containsStr m.content
        (findLastUser [{ role := "user", content := "Hello" }]) ∧
      (∀ f rest,
        [ToolInput.fn { name := "web.navigate", description := "d" }] =
          ToolInput.fn f :: rest →
        m.tool_calls = some [{ id := "mock_tool_call_1", name := f.name,
                               arguments := [] }]) ∧
      ([ToolInput.fn { name := "web.navigate", description := "d" }] =
          ([] : List ToolInput) → m.tool_calls = none) :=
  C4_mock_response [{ role := "user", content := "Hello" }]
    [ToolInput.fn { name := "web.navigate", description := "d" }]
    (Or.inr ⟨{ name := "web.navigate", description := "d" }, [], rfl⟩)

/-! ### C1 -/

/-- The email-folders tool definition registered by
`wind_api/apps/email.py` (`get_folders_tool`). -/
def exToolDef : ToolDefinition :=
  { name := "email.folders", description := "Get all email folders",
    app_id := some "email", category := "email", parameters := [] }

/-- An app tool handler that succeeds with a small payload. -/
def exHandler : Handler := fun _ _ => .ok (Json.obj [("ok", Json.bool true)])

/-- A registry state with the example tool registered and bound, as
after the decorator-driven registration at startup. -/
def exRegistry : Registry :=
  { tools := [("email.folders", exToolDef)],
    handlers := [("email.folders", exHandler)],
    categories := ["system", "email"] }

/-- C1 counterexample: with a perfectly healthy backend (`sendEcho`)
and exactly the mixed tools list the chat endpoint builds
(`combinedToolSchemas` over a registry holding one app tool),
`_complete_with_openai` raises `AttributeError` to its caller —
`to_dict` reads `.name` off the plain registry schema dicts before
the `try:` block — instead of returning a Message.  `Except.error`
models an exception escaping the adapter, so the claim that the call
never raises for every tool list is false. -/
theorem C1_counterexample :
    completeWithOpenai sendEcho decodeNone "gpt-4o"
      [{ role := "user", content := "Hello" }]
      (some (combinedToolSchemas exRegistry)) (some WIND_SYSTEM_PROMPT) none =
    Except.error dictNoAttr := rfl

/-- Translation of a tools list succeeds when every element is a
genuine `ToolFunction`. -/
lemma translateTools_ok (ts : List ToolInput) (h : ∀ t ∈ ts, t.isFn = true) :
    ∃ js, translateTools ts = Except.ok js := by
  induction ts with
  | nil => exact ⟨[], rfl⟩
  | cons t rest ih =>
    obtain ⟨js, hjs⟩ := ih (fun x hx => h x (List.mem_cons_of_mem _ hx))
    have ht := h t (List.mem_cons_self _ _)
    cases t with
    | fn f =>
      refine ⟨Json.obj [("type", Json.str "function"),
        ("function", Json.obj [("name", Json.str f.name),
          ("description", Json.str f.description),
          ("parameters", f.parameters)])] :: js, ?_⟩
      simp only [translateTools, to_dict, hjs]
    | schema s => simp [ToolInput.isFn] at ht

/-- C1 (amended): for a tools list consisting solely of
`ToolFunction` objects the adapter never raises and always returns
an assistant-role message, and any failure of the backend call is
converted into the diagnostic `"Error: ..."` assistant message.
(The unqualified claim fails: as `C1_counterexample` shows, the
schema-dict elements of the mixed endpoint tools list make the
pre-`try:` translation raise `AttributeError` to the caller.) -/
theorem C1_transport_failures_swallowed
    (send : ProviderRequest → Except String RawMessage)
    (decodeArgs : String → Option (Dict Json)) (defaultModel : String)
    (messages : List Msg) (tools : Option (List ToolInput))
    (system : Option String) (model : Option String)
    (hfn : ∀ t ∈ tools.getD [], t.isFn = true) :
    (∃ m, completeWithOpenai send decodeArgs defaultModel messages tools
        system model = Except.ok m ∧ m.role = "assistant") ∧
    (∀ e, (∀ req, send req = Except.error e) →
      completeWithOpenai send decodeArgs defaultModel messages tools
        system model =
        Except.ok { role := "assistant", content := "Error: " ++ e }) := by
  have htp : ∃ tp, openaiToolsParam tools = Except.ok tp := by
    cases tools with
    | none => exact ⟨none, rfl⟩
    | some ts =>
      by_cases hts : ts.isEmpty
      · exact ⟨none, by simp [openaiToolsParam, hts]⟩
      · obtain ⟨js, hjs⟩ := translateTools_ok ts (by simpa using hfn)
        exact ⟨some js, by simp [openaiToolsParam, hts, hjs]⟩
  obtain ⟨tp, htp⟩ := htp
  have hrole : ∀ req, (openaiTryBlock send decodeArgs req).role = "assistant" := by
    intro req
    unfold openaiTryBlock
    cases hs : send req with
    | error e => rfl
    | ok raw =>
      cases hr : raw.tool_calls with
      | none => simp [hr]
      | some tcs => by_cases htcs : tcs.isEmpty <;> simp [hr, htcs]
  constructor
  · refine ⟨openaiTryBlock send decodeArgs
      { model := model.getD defaultModel,
        messages := match system with
          | some s => ({ role := "system", content := s } : Msg) :: messages
          | none => messages,
        tools := tp }, ?_, hrole _⟩
    simp only [completeWithOpenai, htp]
    rfl
  · intro e he
    simp only [completeWithOpenai, htp]
    unfold openaiTryBlock
    rw [he]

/-- Witness for the amended C1 at a concrete input: one
`ToolFunction` tool and a backend whose every call fails. -/
theorem C1_transport_failures_swallowed_witness :
    (∃ m, completeWithOpenai (fun _ => Except.error "connection refused")
        decodeNone "gpt-4o" [{ role := "user", content := "Hello" }]
        (some [ToolInput.fn { name := "web.navigate", description := "d" }])
        (some WIND_SYSTEM_PROMPT) none = Except.ok m ∧
        m.role = "assistant") ∧
    (∀ e, (∀ req, (fun (_ : ProviderRequest) =>
        Except.error (ε := String) (α := RawMessage) "connection refused") req =
          Except.error e) →
      completeWithOpenai (fun _ => Except.error "connection refused")
        decodeNone "gpt-4o" [{ role := "user", content := "Hello" }]
        (some [ToolInput.fn { name := "web.navigate", description := "d" }])
        (some WIND_SYSTEM_PROMPT) none =
        Except.ok { role := "assistant", content := "Error: " ++ e }) :=
  C1_transport_failures_swallowed
    (fun _ => Except.error "connection refused") decodeNone "gpt-4o"
    [{ role := "user", content := "Hello" }]
    (some [ToolInput.fn { name := "web.navigate", description := "d" }])
    (some WIND_SYSTEM_PROMPT) none
    (by intro t ht; simp at ht; subst ht; rfl)

/-! ### Orchestrator helper lemmas -/

/-- Unfolding of `chat` when the first completion carries a
non-empty tool-call list. -/
lemma chat_with_tools (provider : Provider) (reg : Registry)
    (impl : String → Dict Json → Except String Json) (req : ChatRequest)
    (resp : Msg) (tcs : List ToolCall)
    (hresp : provider req.messages (some (combinedToolSchemas reg))
        (some WIND_SYSTEM_PROMPT) = resp)
    (htc : resp.tool_calls = some tcs) (hne : tcs ≠ []) :
    chat provider reg impl req =
      { message := provider
          (req.messages ++
            ((tcs.map (runOne reg impl req.user_id)).map Prod.fst).map
              toolResultMessage) none (some WIND_SYSTEM_PROMPT),
        steps := [Step.input req.messages, Step.llm_response resp] ++
          (tcs.map (runOne reg impl req.user_id)).map Prod.snd ++
          [Step.final_response (provider
            (req.messages ++
              ((tcs.map (runOne reg impl req.user_id)).map Prod.fst).map
                toolResultMessage) none (some WIND_SYSTEM_PROMPT))],
        calls := [⟨req.messages, some (combinedToolSchemas reg),
            some WIND_SYSTEM_PROMPT⟩,
          ⟨req.messages ++
            ((tcs.map (runOne reg impl req.user_id)).map Prod.fst).map
              toolResultMessage, none, some WIND_SYSTEM_PROMPT⟩] } := by
  cases tcs with
  | nil => exact absurd rfl hne
  | cons t rest =>
    simp only [chat, hresp, htc]
    simp

/-- Unfolding of `chat` when the first completion carries no tool
calls (`tool_calls` absent or an empty, falsy list). -/
lemma chat_no_tools (provider : Provider) (reg : Registry)
    (impl : String → Dict Json → Except String Json) (req : ChatRequest)
    (resp : Msg)
    (hresp : provider req.messages (some (combinedToolSchemas reg))
        (some WIND_SYSTEM_PROMPT) = resp)
    (htc : resp.tool_calls = none ∨ resp.tool_calls = some []) :
    chat provider reg impl req =
      { message := resp,
        steps := [Step.input req.messages, Step.llm_response resp],
        calls := [⟨req.messages, some (combinedToolSchemas reg),
            some WIND_SYSTEM_PROMPT⟩] } := by
  rcases htc with htc | htc <;> simp only [chat, hresp, htc] <;> rfl

/-- A tool call the app registry handles whose handler returns
normally: a `tool_call` step with a success result. -/
lemma runOne_registry_ok (reg : Registry)
    (impl : String → Dict Json → Except String Json) (uid : Option String)
    (tc : ToolCall) (td : ToolDefinition) (h : Handler) (d : Json)
    (ht : dlookup tc.name reg.tools = some td)
    (hh : dlookup tc.name reg.handlers = some h)
    (hok : h tc.arguments [("user_id", Json.str (userIdOrDefault uid))] =
      Except.ok d) :
    runOne reg impl uid tc =
      (⟨tc.id, tc.name, tc.arguments,
        [("status", Json.str "success"), ("data", d)]⟩,
       Step.tool_call tc [("status", Json.str "success"), ("data", d)]) := by
  simp [runOne, routeToolCall, Registry.can_handle, Registry.handle,
    ht, hh, hok]

/-- A tool call the app registry handles whose handler raises: still
a `tool_call` step, carrying the error-status result the registry
builds — the exception does not reach the orchestrator. -/
lemma runOne_registry_err (reg : Registry)
    (impl : String → Dict Json → Except String Json) (uid : Option String)
    (tc : ToolCall) (td : ToolDefinition) (h : Handler) (e : String)
    (ht : dlookup tc.name reg.tools = some td)
    (hh : dlookup tc.name reg.handlers = some h)
    (herr : h tc.arguments [("user_id", Json.str (userIdOrDefault uid))] =
      Except.error e) :
    runOne reg impl uid tc =
      (⟨tc.id, tc.name, tc.arguments,
        [("status", Json.str "error"), ("error", Json.str e)]⟩,
       Step.tool_call tc [("status", Json.str "error"), ("error", Json.str e)]) := by
  simp [runOne, routeToolCall, Registry.can_handle, Registry.handle,
    ht, hh, herr]

/-- A tool call no component can handle: the `ValueError` raised by
`Tools.call` is caught by the loop, yielding a `tool_error` step. -/
lemma runOne_unknown (reg : Registry)
    (impl : String → Dict Json → Except String Json) (uid : Option String)
    (tc : ToolCall)
    (hch : reg.can_handle tc.name = false)
    (hsys : systemToolNames.contains tc.name = false) :
    runOne reg impl uid tc =
      (⟨tc.id, tc.name, tc.arguments,
        [("success", Json.bool false),
         ("error", Json.str ("Unknown tool: " ++ tc.name))]⟩,
       Step.tool_error tc ("Unknown tool: " ++ tc.name)) := by
  have hmem : ¬ tc.name ∈ systemToolNames := by simpa using hsys
  simp [runOne, routeToolCall, toolsCall, hch, hmem]

/-- `ToolsRegistry.handle` on a name it cannot handle raises the
`ValueError` instead of returning a result dict. -/
lemma handle_not_can_handle (r : Registry) (n : String) (args ctx : Dict Json)
    (h : r.can_handle n = false) :
    r.handle n args ctx =
      Except.error ("Tool " ++ squote ++ n ++ squote ++ " cannot be handled") := by
  unfold Registry.can_handle at h
  cases hlt : dlookup n r.tools with
  | none => cases hlh : dlookup n r.handlers <;> simp [Registry.handle, hlt, hlh]
  | some td =>
    cases hlh : dlookup n r.handlers with
    | none => simp [Registry.handle, hlt, hlh]
    | some hd => rw [hlt, hlh] at h; simp at h

/-! ### C2 -/

/-- A freshly constructed, empty `ToolsRegistry`. -/
def freshRegistry : Registry := {}

/-- C2 counterexample: dispatching an unregistered name through
`ToolsRegistry.handle` does not return a ToolNotFound-style
`ToolResult` with status `"error"` — it raises `ValueError`
(`Except.error` models the raise), as the docstring of the method
itself documents. -/
theorem C2_counterexample :
    Registry.handle freshRegistry "nonexistent.tool" [] [] =
      Except.error ("Tool " ++ squote ++ "nonexistent.tool" ++ squote ++
        " cannot be handled") := rfl

/-- C2 (amended): for every tool name that is not registered or has
no bound handler, `ToolsRegistry.handle` fails immediately — by
raising `ValueError`, not by returning an error ToolResult — without
invoking any handler; in the orchestrator the failed dispatch of
such a name (routed to the system tools, which also raise) is caught
per call and recorded as a `tool_error` step, and the turn continues
with the sibling tool call dispatched and unaffected. -/
theorem C2_unknown_tool_raises (r : Registry)
    (impl : String → Dict Json → Except String Json) (provider : Provider)
    (req : ChatRequest) (resp : Msg) (tc1 tc2 : ToolCall)
    (td2 : ToolDefinition) (h2 : Handler) (d : Json)
    (hresp : provider req.messages (some (combinedToolSchemas r))
        (some WIND_SYSTEM_PROMPT) = resp)
    (htc : resp.tool_calls = some [tc1, tc2])
    (hch1 : r.can_handle tc1.name = false)
    (hsys1 : systemToolNames.contains tc1.name = false)
    (ht2 : dlookup tc2.name r.tools = some td2)
    (hh2 : dlookup tc2.name r.handlers = some h2)
    (hok2 : h2 tc2.arguments
        [("user_id", Json.str (userIdOrDefault req.user_id))] = Except.ok d) :
    (∀ n args ctx, r.can_handle n = false →
      r.handle n args ctx = Except.error ("Tool " ++ squote ++ n ++ squote ++
        " cannot be handled")) ∧
    ∃ final, (chat provider r impl req).steps =
      [Step.input req.messages, Step.llm_response resp,
       Step.tool_error tc1 ("Unknown tool: " ++ tc1.name),
       Step.tool_call tc2 [("status", Json.str "success"), ("data", d)],
       Step.final_response final] := by
  constructor
  · exact fun n args ctx h => handle_not_can_handle r n args ctx h
  · have e1 := runOne_unknown r impl req.user_id tc1 hch1 hsys1
    have e2 := runOne_registry_ok r impl req.user_id tc2 td2 h2 d ht2 hh2 hok2
    rw [chat_with_tools provider r impl req resp [tc1, tc2] hresp htc
      (by simp)]
    simp only [List.map_cons, List.map_nil, e1, e2, List.cons_append,
      List.nil_append]
    exact ⟨_, rfl⟩

/-- A tool call on a name registered nowhere. -/
def exTcUnknown : ToolCall :=
  { id := "call_1", name := "nonexistent.tool", arguments := [] }

/-- A tool call on the registered email-folders tool. -/
def exTcEmail : ToolCall :=
  { id := "call_2", name := "email.folders", arguments := [] }

/-- A first-completion message carrying the unknown-name call and
the email call. -/
def exRespTwo : Msg :=
  { role := "assistant", content := "",
    tool_calls := some [exTcUnknown, exTcEmail] }

/-- A provider that returns `exRespTwo` when offered tools and a
plain final answer on the follow-up call. -/
def exProviderTwo : Provider := fun _ tools _ =>
  match tools with
  | some _ => exRespTwo
  | none => { role := "assistant", content := "final answer" }

/-- Browser-tool behavior stub for witnesses. -/
def exImpl : String → Dict Json → Except String Json :=
  fun _ _ => .ok Json.null

/-- A chat request with one user message and no user id. -/
def exReq : ChatRequest :=
  { messages := [{ role := "user", content := "Hello" }] }

/-- Witness for the amended C2 at concrete inputs. -/
theorem C2_unknown_tool_raises_witness :
    ((∀ n args ctx, exRegistry.can_handle n = false →
      exRegistry.handle n args ctx =
        Except.error ("Tool " ++ squote ++ n ++ squote ++
          " cannot be handled")) ∧
    ∃ final, (chat exProviderTwo exRegistry exImpl exReq).steps =
      [Step.input exReq.messages, Step.llm_response exRespTwo,
       Step.tool_error exTcUnknown ("Unknown tool: " ++ exTcUnknown.name),
       Step.tool_call exTcEmail
         [("status", Json.str "success"),
          ("data", Json.obj [("ok", Json.bool true)])],
       Step.final_response final]) :=
  C2_unknown_tool_raises exRegistry exImpl exProviderTwo exReq exRespTwo
    exTcUnknown exTcEmail exToolDef exHandler
    (Json.obj [("ok", Json.bool true)]) rfl rfl rfl rfl rfl rfl rfl

/-! ### C5 -/

/-- C5: a handler exception never escapes dispatch — it is folded
per call into a `status:"error"` ToolResult — and in a turn with two
tool calls whose first handler raises, the second call is still
dispatched and its success result is unaffected. -/
theorem C5_handler_errors_isolated (r : Registry)
    (impl : String → Dict Json → Except String Json) (provider : Provider)
    (req : ChatRequest) (resp : Msg) (tc1 tc2 : ToolCall)
    (td1 td2 : ToolDefinition) (h1 h2 : Handler) (e : String) (d : Json)
    (hresp : provider req.messages (some (combinedToolSchemas r))
        (some WIND_SYSTEM_PROMPT) = resp)
    (htc : resp.tool_calls = some [tc1, tc2])
    (ht1 : dlookup tc1.name r.tools = some td1)
    (hh1 : dlookup tc1.name r.handlers = some h1)
    (herr : h1 tc1.arguments
        [("user_id", Json.str (userIdOrDefault req.user_id))] =
      Except.error e)
    (ht2 : dlookup tc2.name r.tools = some td2)
    (hh2 : dlookup tc2.name r.handlers = some h2)
    (hok2 : h2 tc2.arguments
        [("user_id", Json.str (userIdOrDefault req.user_id))] =
      Except.ok d) :
    (∀ n t hnd args ctx e2, dlookup n r.tools = some t →
      dlookup n r.handlers = some hnd → hnd args ctx = Except.error e2 →
      r.handle n args ctx =
        Except.ok [("status", Json.str "error"), ("error", Json.str e2)]) ∧
    ∃ final, (chat provider r impl req).steps =
      [Step.input req.messages, Step.llm_response resp,
       Step.tool_call tc1 [("status", Json.str "error"), ("error", Json.str e)],
       Step.tool_call tc2 [("status", Json.str "success"), ("data", d)],
       Step.final_response final] := by
  constructor
  · intro n t hnd args ctx e2 hl1 hl2 hl3
    simp [Registry.handle, hl1, hl2, hl3]
  · have e1 := runOne_registry_err r impl req.user_id tc1 td1 h1 e ht1 hh1 herr
    have e2 := runOne_registry_ok r impl req.user_id tc2 td2 h2 d ht2 hh2 hok2
    rw [chat_with_tools provider r impl req resp [tc1, tc2] hresp htc
      (by simp)]
    simp only [List.map_cons, List.map_nil, e1, e2, List.cons_append,
      List.nil_append]
    exact ⟨_, rfl⟩

/-- The email-send tool definition (apps/email.py, `send_email_tool`),
used with a raising handler in the C5 witness. -/
def exFailToolDef : ToolDefinition :=
  { name := "email.send", description := "Send an existing draft email",
    app_id := some "email", category := "email", parameters := [] }

/-- A handler that raises (`ValueError("Email not found")`). -/
def exFailHandler : Handler := fun _ _ => .error "Email not found"

/-- A registry with a raising tool and a succeeding tool bound. -/
def exRegistryPair : Registry :=
  { tools := [("email.send", exFailToolDef), ("email.folders", exToolDef)],
    handlers := [("email.send", exFailHandler), ("email.folders", exHandler)],
    categories := ["system", "email"] }

/-- A tool call on the raising email-send tool. -/
def exTcSend : ToolCall :=
  { id := "call_a", name := "email.send", arguments := [] }

/-- A tool call on the succeeding email-folders tool. -/
def exTcFolders : ToolCall :=
  { id := "call_b", name := "email.folders", arguments := [] }

/-- A first-completion message carrying both calls, failing first. -/
def exRespPair : Msg :=
  { role := "assistant", content := "",
    tool_calls := some [exTcSend, exTcFolders] }

/-- A provider that returns `exRespPair` when offered tools. -/
def exProviderPair : Provider := fun _ tools _ =>
  match tools with
  | some _ => exRespPair
  | none => { role := "assistant", content := "done" }

/-- Witness for C5 at concrete inputs. -/
theorem C5_handler_errors_isolated_witness :
    ((∀ n t hnd args ctx e2, dlookup n exRegistryPair.tools = some t →
      dlookup n exRegistryPair.handlers = some hnd →
      hnd args ctx = Except.error e2 →
      exRegistryPair.handle n args ctx =
        Except.ok [("status", Json.str "error"), ("error", Json.str e2)]) ∧
    ∃ final, (chat exProviderPair exRegistryPair exImpl exReq).steps =
      [Step.input exReq.messages, Step.llm_response exRespPair,
       Step.tool_call exTcSend
         [("status", Json.str "error"),
          ("error", Json.str "Email not found")],
       Step.tool_call exTcFolders
         [("status", Json.str "success"),
          ("data", Json.obj [("ok", Json.bool true)])],
       Step.final_response final]) :=
  C5_handler_errors_isolated exRegistryPair exImpl exProviderPair exReq
    exRespPair exTcSend exTcFolders exFailToolDef exToolDef exFailHandler
    exHandler "Email not found" (Json.obj [("ok", Json.bool true)])
    rfl rfl rfl rfl rfl rfl rfl rfl

/-- A loop-iteration step is always one of the two tool-step kinds. -/
lemma runOne_snd_isToolStep (reg : Registry)
    (impl : String → Dict Json → Except String Json) (uid : Option String)
    (tc : ToolCall) : ((runOne reg impl uid tc).2).isToolStep = true := by
  unfold runOne
  cases h : routeToolCall reg impl uid tc <;> rfl

/-- A loop-iteration step is never a `final_response`. -/
lemma runOne_snd_ne_final (reg : Registry)
    (impl : String → Dict Json → Except String Json) (uid : Option String)
    (tc : ToolCall) (m : Msg) :
    (runOne reg impl uid tc).2 ≠ Step.final_response m := by
  unfold runOne
  cases h : routeToolCall reg impl uid tc <;> simp

/-- The result entry of one loop iteration carries the originating
request id (both on success and on a caught exception). -/
lemma runOne_fst_id (reg : Registry)
    (impl : String → Dict Json → Except String Json) (uid : Option String)
    (tc : ToolCall) : ((runOne reg impl uid tc).1).tool_call_id = tc.id := by
  unfold runOne
  cases h : routeToolCall reg impl uid tc <;> rfl

/-! ### C3 -/

/-- C3: in every step trace the orchestrator produces, the `input`
step comes first; when tool steps exist a `final_response` step is
last (hence follows all of them); when none exist the trace ends
with the `llm_response` step. -/
theorem C3_step_trace_ordering (provider : Provider) (reg : Registry)
    (impl : String → Dict Json → Except String Json) (req : ChatRequest) :
    (chat provider reg impl req).steps.head? =
      some (Step.input req.messages) ∧
    ((∃ s ∈ (chat provider reg impl req).steps, s.isToolStep = true) →
      ∃ m, (chat provider reg impl req).steps.getLast? =
        some (Step.final_response m)) ∧
    ((∀ s ∈ (chat provider reg impl req).steps, s.isToolStep = false) →
      ∃ m, (chat provider reg impl req).steps.getLast? =
        some (Step.llm_response m)) := by
  cases htc : (provider req.messages (some (combinedToolSchemas reg))
      (some WIND_SYSTEM_PROMPT)).tool_calls with
  | none =>
    rw [chat_no_tools provider reg impl req _ rfl (Or.inl htc)]
    refine ⟨rfl, ?_, fun _ => ⟨_, rfl⟩⟩
    rintro ⟨s, hs, hts⟩
    simp at hs
    rcases hs with hs | hs <;> subst hs <;> simp [Step.isToolStep] at hts
  | some tcs =>
    cases tcs with
    | nil =>
      rw [chat_no_tools provider reg impl req _ rfl (Or.inr htc)]
      refine ⟨rfl, ?_, fun _ => ⟨_, rfl⟩⟩
      rintro ⟨s, hs, hts⟩
      simp at hs
      rcases hs with hs | hs <;> subst hs <;> simp [Step.isToolStep] at hts
    | cons t rest =>
      rw [chat_with_tools provider reg impl req _ (t :: rest) rfl htc
        (by simp)]
      refine ⟨by simp, fun _ => ⟨_, List.getLast?_concat _⟩, ?_⟩
      intro hall
      exfalso
      have hmem : (runOne reg impl req.user_id t).2 ∈
          ([Step.input req.messages,
            Step.llm_response (provider req.messages
              (some (combinedToolSchemas reg)) (some WIND_SYSTEM_PROMPT))] ++
            ((t :: rest).map (runOne reg impl req.user_id)).map Prod.snd ++
            [Step.final_response (provider
              (req.messages ++
                (((t :: rest).map (runOne reg impl req.user_id)).map
                  Prod.fst).map toolResultMessage) none
              (some WIND_SYSTEM_PROMPT))]) := by
        simp
      have := hall _ hmem
      rw [runOne_snd_isToolStep] at this
      exact absurd this (by simp)

/-- Witness for C3 at concrete inputs (a turn with two tool calls). -/
theorem C3_step_trace_ordering_witness :
    (chat exProviderPair exRegistryPair exImpl exReq).steps.head? =
      some (Step.input exReq.messages) ∧
    ((∃ s ∈ (chat exProviderPair exRegistryPair exImpl exReq).steps,
        s.isToolStep = true) →
      ∃ m, (chat exProviderPair exRegistryPair exImpl exReq).steps.getLast? =
        some (Step.final_response m)) ∧
    ((∀ s ∈ (chat exProviderPair exRegistryPair exImpl exReq).steps,
        s.isToolStep = false) →
      ∃ m, (chat exProviderPair exRegistryPair exImpl exReq).steps.getLast? =
        some (Step.llm_response m)) :=
  C3_step_trace_ordering exProviderPair exRegistryPair exImpl exReq

/-! ### C6 -/

/-- C6: when the first completion returns N tool calls, exactly N
`tool`-role messages are appended (in the same relative order) to
the history handed to the second completion, and — given the
spec-invariant uniqueness of request ids within one completion —
the `tool_call_id` of each appended message matches exactly one
ToolCallRequest of that completion. -/
theorem C6_tool_messages_order_and_ids (provider : Provider) (reg : Registry)
    (impl : String → Dict Json → Except String Json) (req : ChatRequest)
    (resp : Msg) (tcs : List ToolCall)
    (hresp : provider req.messages (some (combinedToolSchemas reg))
        (some WIND_SYSTEM_PROMPT) = resp)
    (htc : resp.tool_calls = some tcs) (hne : tcs ≠ [])
    (hids : (tcs.map ToolCall.id).Nodup) :
    ∃ c1 c2, (chat provider reg impl req).calls = [c1, c2] ∧
      ∃ appended, c2.messages = req.messages ++ appended ∧
        List.Forall₂ (fun (m : Msg) (tc : ToolCall) =>
          m.role = "tool" ∧ m.tool_call_id = some tc.id) appended tcs ∧
        ∀ m ∈ appended, ∃! tc, tc ∈ tcs ∧ m.tool_call_id = some tc.id := by
  rw [chat_with_tools provider reg impl req resp tcs hresp htc hne]
  refine ⟨_, _, rfl,
    ((tcs.map (runOne reg impl req.user_id)).map Prod.fst).map
      toolResultMessage, rfl, ?_, ?_⟩
  · rw [List.map_map, List.map_map, List.forall₂_map_left_iff,
      List.forall₂_same]
    intro tc _
    exact ⟨rfl, by simp [toolResultMessage, runOne_fst_id]⟩
  · intro m hm
    rw [List.map_map, List.map_map] at hm
    rw [List.mem_map] at hm
    obtain ⟨tc0, htc0, hm0⟩ := hm
    have h0 : m.tool_call_id = some tc0.id := by
      rw [← hm0]; simp [toolResultMessage, runOne_fst_id]
    refine ⟨tc0, ⟨htc0, h0⟩, ?_⟩
    rintro tc' ⟨htc', hid'⟩
    have : tc'.id = tc0.id := by
      rw [h0] at hid'
      exact Option.some_injective _ hid'.symm
    exact List.inj_on_of_nodup_map hids htc' htc0 this

/-- Witness for C6 at concrete inputs (two tool calls with distinct
ids). -/
theorem C6_tool_messages_order_and_ids_witness :
    ∃ c1 c2, (chat exProviderPair exRegistryPair exImpl exReq).calls =
        [c1, c2] ∧
      ∃ appended, c2.messages = exReq.messages ++ appended ∧
        List.Forall₂ (fun (m : Msg) (tc : ToolCall) =>
          m.role = "tool" ∧ m.tool_call_id = some tc.id) appended
          [exTcSend, exTcFolders] ∧
        ∀ m ∈ appended, ∃! tc, tc ∈ [exTcSend, exTcFolders] ∧
          m.tool_call_id = some tc.id :=
  C6_tool_messages_order_and_ids exProviderPair exRegistryPair exImpl exReq
    exRespPair [exTcSend, exTcFolders] rfl rfl (by simp)
    (by simp [exTcSend, exTcFolders])

/-! ### C7 -/

/-- Decomposing `L ++ [y]` around an element that does not occur in
`L`: the element must be the trailing `y`, so nothing follows it. -/
lemma post_nil_of_append_singleton {α : Type} (pre post L : List α) (x y : α)
    (h : pre ++ x :: post = L ++ [y]) (hx : x ∉ L) : post = [] := by
  rcases List.append_eq_append_iff.mp h with ⟨a, ha1, ha2⟩ | ⟨c, hc1, hc2⟩
  · cases a with
    | nil =>
      simp at ha2
      exact ha2.2
    | cons a0 arest =>
      injection ha2 with h1 h2
      subst h1
      exact absurd (by rw [ha1]; simp) hx
  · cases c with
    | nil =>
      simp at hc2
      exact hc2.2
    | cons c0 crest =>
      injection hc2 with h1 h2
      exact absurd h2.symm (by simp)

/-- C7: at most one round of tool execution per request — the
orchestrator makes at most two provider calls; when a second call
happens it receives the updated history and the fixed system prompt
but no tool schema set; and nothing (in particular no dispatch step)
ever follows a `final_response` step, so tool calls carried by the
result of the second completion are never dispatched. -/
theorem C7_single_tool_round (provider : Provider) (reg : Registry)
    (impl : String → Dict Json → Except String Json) (req : ChatRequest) :
    (chat provider reg impl req).calls.length ≤ 2 ∧
    (∀ c1 c2, (chat provider reg impl req).calls = [c1, c2] →
      c1.tools = some (combinedToolSchemas reg) ∧
      c1.system = some WIND_SYSTEM_PROMPT ∧
      c2.tools = none ∧ c2.system = some WIND_SYSTEM_PROMPT ∧
      ∃ appended, c2.messages = req.messages ++ appended) ∧
    (∀ pre m post, (chat provider reg impl req).steps =
      pre ++ Step.final_response m :: post → post = []) := by
  cases htc : (provider req.messages (some (combinedToolSchemas reg))
      (some WIND_SYSTEM_PROMPT)).tool_calls with
  | none =>
    rw [chat_no_tools provider reg impl req _ rfl (Or.inl htc)]
    refine ⟨by simp, ?_, ?_⟩
    · intro c1 c2 h
      simp at h
    · intro pre m post h
      have h2 : ([Step.input req.messages,
          Step.llm_response (provider req.messages
            (some (combinedToolSchemas reg)) (some WIND_SYSTEM_PROMPT))] :
            List Step) = pre ++ Step.final_response m :: post := h
      have hmem : Step.final_response m ∈ ([Step.input req.messages,
          Step.llm_response (provider req.messages
            (some (combinedToolSchemas reg)) (some WIND_SYSTEM_PROMPT))] :
            List Step) := by
        rw [h2]; simp
      simp at hmem
  | some tcs =>
    cases tcs with
    | nil =>
      rw [chat_no_tools provider reg impl req _ rfl (Or.inr htc)]
      refine ⟨by simp, ?_, ?_⟩
      · intro c1 c2 h
        simp at h
      · intro pre m post h
        have h2 : ([Step.input req.messages,
            Step.llm_response (provider req.messages
              (some (combinedToolSchemas reg)) (some WIND_SYSTEM_PROMPT))] :
              List Step) = pre ++ Step.final_response m :: post := h
        have hmem : Step.final_response m ∈ ([Step.input req.messages,
            Step.llm_response (provider req.messages
              (some (combinedToolSchemas reg)) (some WIND_SYSTEM_PROMPT))] :
              List Step) := by
          rw [h2]; simp
        simp at hmem
    | cons t rest =>
      rw [chat_with_tools provider reg impl req _ (t :: rest) rfl htc
        (by simp)]
      refine ⟨by simp, ?_, ?_⟩
      · intro c1 c2 h
        injection h with h1 h2
        injection h2 with h2 _
        subst h1
        subst h2
        exact ⟨rfl, rfl, rfl, rfl, _, rfl⟩
      · intro pre m post h
        refine post_nil_of_append_singleton pre post _ _ _ h.symm ?_
        intro hmem
        simp at hmem
        rcases hmem with hmem | ⟨tc0, _, hmem⟩
        · exact runOne_snd_ne_final reg impl req.user_id t m hmem.symm
        · exact runOne_snd_ne_final reg impl req.user_id tc0 m hmem

/-- Witness for C7 at concrete inputs (a turn with two tool calls). -/
theorem C7_single_tool_round_witness :
    (chat exProviderPair exRegistryPair exImpl exReq).calls.length ≤ 2 ∧
    (∀ c1 c2, (chat exProviderPair exRegistryPair exImpl exReq).calls =
        [c1, c2] →
      c1.tools = some (combinedToolSchemas exRegistryPair) ∧
      c1.system = some WIND_SYSTEM_PROMPT ∧
      c2.tools = none ∧ c2.system = some WIND_SYSTEM_PROMPT ∧
      ∃ appended, c2.messages = exReq.messages ++ appended) ∧
    (∀ pre m post, (chat exProviderPair exRegistryPair exImpl exReq).steps =
      pre ++ Step.final_response m :: post → post = []) :=
  C7_single_tool_round exProviderPair exRegistryPair exImpl exReq

/-! ### Dict lemmas for the registry claims -/

/-- Lookup after insert. -/
lemma dlookup_dinsert {α : Type} (k m : String) (v : α) (d : Dict α) :
    dlookup m (dinsert k v d) =
      if k = m then some v else dlookup m d := by
  induction d with
  | nil => simp [dinsert, dlookup]
  | cons p rest ih =>
    obtain ⟨k2, v2⟩ := p
    by_cases hk : k2 = k
    · subst hk
      simp only [dinsert, if_pos rfl, dlookup]
      by_cases hm : k2 = m <;> simp [hm, dlookup]
    · simp only [dinsert, if_neg hk, dlookup]
      by_cases hm : k2 = m
      · subst hm
        have : ¬ k = k2 := fun h => hk h.symm
        simp [this]
      · simp [hm, ih]

/-- An element of an inserted dict is the new binding or an original
one. -/
lemma mem_dinsert {α : Type} (p : String × α) (k : String) (v : α)
    (d : Dict α) : p ∈ dinsert k v d → p = (k, v) ∨ p ∈ d := by
  induction d with
  | nil =>
    intro h
    simpa [dinsert] using h
  | cons q rest ih =>
    obtain ⟨k2, v2⟩ := q
    intro h
    by_cases hk : k2 = k
    · subst hk
      have hstep : dinsert k2 v ((k2, v2) :: rest) = (k2, v) :: rest := by
        simp [dinsert]
      rw [hstep, List.mem_cons] at h
      rcases h with h | h
      · exact Or.inl h
      · exact Or.inr (List.mem_cons_of_mem _ h)
    · simp only [dinsert, if_neg hk, List.mem_cons] at h
      rcases h with h | h
      · exact Or.inr (by simp [h])
      · rcases ih h with h | h
        · exact Or.inl h
        · exact Or.inr (List.mem_cons_of_mem _ h)

/-- A key occurs in an inserted dict iff it is the inserted key or
occurred before. -/
lemma mem_keys_dinsert {α : Type} (a k : String) (v : α) (d : Dict α) :
    a ∈ (dinsert k v d).map Prod.fst ↔ a = k ∨ a ∈ d.map Prod.fst := by
  induction d with
  | nil => simp [dinsert]
  | cons q rest ih =>
    obtain ⟨k2, v2⟩ := q
    by_cases hk : k2 = k
    · subst hk
      have hstep : dinsert k2 v ((k2, v2) :: rest) = (k2, v) :: rest := by
        simp [dinsert]
      rw [hstep]
      simp only [List.map_cons, List.mem_cons]
      tauto
    · simp only [dinsert, if_neg hk]
      simp only [List.map_cons, List.mem_cons, ih]
      tauto

/-- Insertion preserves key uniqueness. -/
lemma nodup_keys_dinsert {α : Type} (k : String) (v : α) (d : Dict α)
    (h : (d.map Prod.fst).Nodup) :
    ((dinsert k v d).map Prod.fst).Nodup := by
  induction d with
  | nil => simp [dinsert]
  | cons q rest ih =>
    obtain ⟨k2, v2⟩ := q
    rw [List.map_cons, List.nodup_cons] at h
    by_cases hk : k2 = k
    · subst hk
      have hstep : dinsert k2 v ((k2, v2) :: rest) = (k2, v) :: rest := by
        simp [dinsert]
      rw [hstep, List.map_cons, List.nodup_cons]
      exact h
    · simp only [dinsert, if_neg hk]
      rw [List.map_cons, List.nodup_cons]
      refine ⟨?_, ih h.2⟩
      rw [mem_keys_dinsert]
      rintro (hc | hc)
      · exact hk hc
      · exact h.1 hc

/-- Inserting a definition under its own name: the values whose name
is that key collapse to exactly the inserted definition, provided
keys were unique and each definition was keyed by its own name. -/
lemma filter_name_dinsert (d : Dict ToolDefinition) (v : ToolDefinition)
    (hnames : ∀ p ∈ d, (p : String × ToolDefinition).2.name = p.1)
    (hnodup : (d.map Prod.fst).Nodup) :
    ((dinsert v.name v d).map Prod.snd).filter
      (fun t => t.name == v.name) = [v] := by
  induction d with
  | nil => simp [dinsert]
  | cons q rest ih =>
    obtain ⟨k2, v2⟩ := q
    have hv2 : v2.name = k2 := hnames (k2, v2) (by simp)
    rw [List.map_cons, List.nodup_cons] at hnodup
    by_cases hk : k2 = v.name
    · subst hk
      have hstep : dinsert v.name v ((v.name, v2) :: rest) =
          (v.name, v) :: rest := by
        simp [dinsert]
      rw [hstep]
      have hrest : (rest.map Prod.snd).filter
          (fun t => t.name == v.name) = [] := by
        rw [List.filter_eq_nil_iff]
        intro t ht
        rw [List.mem_map] at ht
        obtain ⟨p, hp, hpt⟩ := ht
        have htp : t.name = p.1 := by
          rw [← hpt]
          exact hnames p (by simp [hp])
        have hne : p.1 ≠ v.name := by
          intro hcontra
          apply hnodup.1
          show v.name ∈ rest.map Prod.fst
          rw [← hcontra]
          exact List.mem_map_of_mem Prod.fst hp
        simp only [htp]
        simpa using hne
      simp [List.filter_cons, hrest]
    · have hstep : dinsert v.name v ((k2, v2) :: rest) =
          (k2, v2) :: dinsert v.name v rest := by
        rw [dinsert, if_neg hk]
      rw [hstep]
      have hfalse : (v2.name == v.name) = false := by
        rw [hv2]
        simpa using hk
      simp only [List.map_cons, List.filter_cons, hfalse,
        Bool.false_eq_true, if_false]
      exact ih (fun p hp => hnames p (by simp [hp])) hnodup.2

/-! ### C8 -/

/-- C8: registering two definitions under the same name `X` (e.g. a
built-in tool then a pluggable tool) leaves exactly one entry named
`X` in `list_tools()`, and `get_tool("X")` returns the most recently
registered definition — the earlier one is silently overwritten.
(The registry is assumed well-formed: unique keys, each definition
keyed by its own name — which `add_tool` itself maintains.) -/
theorem C8_catalog_overwrite (r : Registry) (d1 d2 : ToolDefinition)
    (X : String) (h1 : d1.name = X) (h2 : d2.name = X)
    (hnames : ∀ p ∈ r.tools, (p : String × ToolDefinition).2.name = p.1)
    (hnodup : (r.tools.map Prod.fst).Nodup) :
    ((((r.add_tool d1).add_tool d2).list_tools none).filter
      (fun t => t.name == X)).length = 1 ∧
    ((r.add_tool d1).add_tool d2).get_tool X = some d2 := by
  subst h2
  have hnames2 : ∀ p ∈ (r.add_tool d1).tools,
      (p : String × ToolDefinition).2.name = p.1 := by
    intro p hp
    rcases mem_dinsert p d1.name d1 r.tools hp with hp | hp
    · rw [hp]
    · exact hnames p hp
  have hnodup2 : (((r.add_tool d1).tools).map Prod.fst).Nodup :=
    nodup_keys_dinsert d1.name d1 r.tools hnodup
  constructor
  · have hfil := filter_name_dinsert (r.add_tool d1).tools d2 hnames2 hnodup2
    show (((dinsert d2.name d2 (r.add_tool d1).tools).map Prod.snd).filter
      (fun t => t.name == d2.name)).length = 1
    rw [hfil]
    rfl
  · show dlookup d2.name (dinsert d2.name d2 (r.add_tool d1).tools) = some d2
    rw [dlookup_dinsert]
    simp

/-- A second registration under the name `email.folders`, standing
for a pluggable tool colliding with an earlier one. -/
def exToolDefV2 : ToolDefinition :=
  { name := "email.folders",
    description := "Get all email folders (pluggable override)",
    app_id := some "email2", category := "email", parameters := [] }

/-- Witness for C8 at concrete inputs: both registrations named
`email.folders` into a fresh registry. -/
theorem C8_catalog_overwrite_witness :
    ((((freshRegistry.add_tool exToolDef).add_tool exToolDefV2).list_tools
        none).filter (fun t => t.name == "email.folders")).length = 1 ∧
    ((freshRegistry.add_tool exToolDef).add_tool exToolDefV2).get_tool
      "email.folders" = some exToolDefV2 :=
  C8_catalog_overwrite freshRegistry exToolDef exToolDefV2 "email.folders"
    rfl rfl (by intro p hp; simp [freshRegistry] at hp) (by simp [freshRegistry])

/-! ### C10 -/

/-- The implicit catalog invariant: every name with a bound handler
has a registered definition. -/
def Registry.handlersCovered (r : Registry) : Prop :=
  ∀ n, (dlookup n r.handlers).isSome = true →
    (dlookup n r.tools).isSome = true

/-- C10: `add_handler` raises (returning no updated registry) when
the name has no registered definition; a successful `add_handler`
and every `register_tool` preserve the handlers-covered invariant;
and under that invariant `can_handle` implies `get_tool` returns a
definition. -/
theorem C10_handlers_have_definitions (r : Registry)
    (hc : r.handlersCovered) :
    (∀ n h, dlookup n r.tools = none →
      r.add_handler n h = Except.error ("Tool " ++ squote ++ n ++ squote ++
        " is not registered")) ∧
    (∀ n h r2, r.add_handler n h = Except.ok r2 → r2.handlersCovered) ∧
    (∀ td h, ∃ r2, r.register_tool td h = Except.ok r2 ∧
      r2.handlersCovered) ∧
    (∀ n, r.can_handle n = true → ∃ td, r.get_tool n = some td) := by
  refine ⟨?_, ?_, ?_, ?_⟩
  · intro n h hnone
    simp [Registry.add_handler, hnone]
  · intro n h r2 hok
    cases hsome : (dlookup n r.tools).isSome with
    | false =>
      rw [Registry.add_handler, if_neg (by simp [hsome])] at hok
      exact absurd hok (by simp)
    | true =>
      rw [Registry.add_handler, if_pos hsome] at hok
      injection hok with hok
      subst hok
      intro m hm
      simp only at hm ⊢
      rw [dlookup_dinsert] at hm
      by_cases hnm : n = m
      · subst hnm
        exact hsome
      · rw [if_neg hnm] at hm
        exact hc m hm
  · intro td h
    have hlook : dlookup td.name (r.add_tool td).tools = some td := by
      show dlookup td.name (dinsert td.name td r.tools) = some td
      rw [dlookup_dinsert]
      simp
    refine ⟨{ tools := dinsert td.name td r.tools,
              handlers := dinsert td.name h r.handlers,
              categories := setInsert td.category r.categories }, ?_, ?_⟩
    · show (r.add_tool td).add_handler td.name h = _
      rw [Registry.add_handler, if_pos (by simp [hlook])]
      rfl
    · intro m hm
      simp only at hm ⊢
      rw [dlookup_dinsert] at hm
      by_cases hnm : td.name = m
      · subst hnm
        show (dlookup td.name (dinsert td.name td r.tools)).isSome = true
        rw [dlookup_dinsert]
        simp
      · rw [if_neg hnm] at hm
        show (dlookup m (dinsert td.name td r.tools)).isSome = true
        rw [dlookup_dinsert, if_neg hnm]
        exact hc m hm
  · intro n hch
    rw [Registry.can_handle, Bool.and_eq_true] at hch
    rw [Registry.get_tool]
    exact Option.isSome_iff_exists.mp hch.1

/-- Witness for C10 at a concrete input: the fresh registry (which
trivially satisfies the invariant) and a concrete registration. -/
theorem C10_handlers_have_definitions_witness :
    (∀ n h, dlookup n freshRegistry.tools = none →
      freshRegistry.add_handler n h =
        Except.error ("Tool " ++ squote ++ n ++ squote ++
          " is not registered")) ∧
    (∀ n h r2, freshRegistry.add_handler n h = Except.ok r2 →
      r2.handlersCovered) ∧
    (∀ td h, ∃ r2, freshRegistry.register_tool td h = Except.ok r2 ∧
      r2.handlersCovered) ∧
    (∀ n, freshRegistry.can_handle n = true →
      ∃ td, freshRegistry.get_tool n = some td) :=
  C10_handlers_have_definitions freshRegistry
    (by intro n hn; simp [freshRegistry, dlookup] at hn)
